import Mathlib

/-!
# ns-3 `PointerToConstValue` and its checker

A shallow embedding of `src/core/model/pointerToConst.h`: the attribute value
`ns3::PointerToConstValue`, the template `ns3::internal::PointerToConstChecker<T>`
and the factory `ns3::MakePointerToConstChecker<T>`.

Modelling choices.

* A C++ class is represented by its run-time type information: its name, the
  `TypeId` its static `GetTypeId ()` returns, and (for a class with a base) the
  type information of its direct public base.  ns-3 object classes form
  single-inheritance chains (a `TypeId` records one parent), so the base chain
  is a finite list walked by `dynamic_cast`.
* An object is an address together with its dynamic class.  A (smart or raw)
  pointer is `Option Object`; `none` is the null pointer.  Reference counting,
  which only governs lifetime, is not represented.
* An `AttributeValue` is either a `PointerToConstValue` or a value of some other
  concrete kind.
* Member functions that assign through a reference are written in
  state-passing style.  The checker's `Copy`, which receives two references that
  may alias, runs over a store of attribute values indexed by address.
* Sequences of calls (the factory, the checker's methods, `Set`) run in a `World`:
  the checker objects allocated so far, each at its own address, and the store of
  attribute values.
-/

namespace ns3

/-! ## Collaborators declared outside this header -/

/-- The type descriptor returned by `T::GetTypeId ()`; only its registered name is used here. -/
structure TypeId where
  m_name : String
deriving DecidableEq, Repr

/-- The method `TypeId::GetName`: the registered name of a type descriptor. -/
def TypeId.GetName (tid : TypeId) : String := tid.m_name

/-- Run-time type information of a C++ class: a class without a base, or a class with one
direct public base.  Each class carries the `TypeId` that its static `GetTypeId ()` returns. -/
inductive CxxClass where
  | root (name : String) (tid : TypeId) : CxxClass
  | derived (name : String) (tid : TypeId) (base : CxxClass) : CxxClass
deriving DecidableEq, Repr

namespace CxxClass

/-- The static member `T::GetTypeId ()`. -/
def GetTypeId : CxxClass → TypeId
  | root _ tid => tid
  | derived _ tid _ => tid

/-- The direct base class, when there is one. -/
def directBase : CxxClass → Option CxxClass
  | root _ _ => none
  | derived _ _ b => some b

/-- The run-time test behind `dynamic_cast<T*>`: walk the base chain of the dynamic type `D`
and report whether `T` is met (at `D` itself or at one of its bases). -/
def castsTo : (D : CxxClass) → (T : CxxClass) → Bool
  | root n tid, T => decide (root n tid = T)
  | derived n tid b, T => decide (derived n tid b = T) || castsTo b T

/-- The declaration-level relation: `B` is the direct base of `D`. -/
def IsDirectBaseOf (B D : CxxClass) : Prop := D.directBase = some B

/-- The class `D` is derived from `B` (equivalently, `B` is an ancestor of `D`): `B` is reached
from `D` by one or more direct-base steps. -/
def DerivedFrom (D B : CxxClass) : Prop :=
  Relation.TransGen (fun d b => IsDirectBaseOf b d) D B

/-- The class `D` is `T` or a class derived from `T`. -/
def IsOrDerivedFrom (D T : CxxClass) : Prop := D = T ∨ DerivedFrom D T

end CxxClass

/-- An object: its identity (address) and its dynamic type. -/
structure Object where
  addr : Nat
  dynType : CxxClass
deriving DecidableEq, Repr

/-- A pointer to an object (`Ptr<const Object>`, `Ptr<T>` or a raw pointer); `none` is null. -/
abbrev ObjPtr := Option Object

/-- The helper `PeekPointer` of `ptr.h`: the raw pointer inside a `Ptr`, the same referent. -/
def PeekPointer (p : ObjPtr) : ObjPtr := p

/-- The operator `dynamic_cast<T*> (p)`: null for a null `p`; otherwise the same object when its
dynamic type is `T` or derives from `T`, and null when it is not. -/
def dynamic_cast (T : CxxClass) (p : ObjPtr) : ObjPtr :=
  match p with
  | none => none
  | some o => if o.dynType.castsTo T then some o else none

/-- A pointer has static type `Ptr<T>` when it is null or its referent's dynamic type is `T`
or derives from `T` (the guarantee of the C++ type system for a `Ptr<T>`). -/
def HasStaticType (T : CxxClass) (p : ObjPtr) : Prop :=
  ∀ o, p = some o → CxxClass.IsOrDerivedFrom o.dynType T

/-! ## `PointerToConstValue` -/

/-- The class `PointerToConstValue`: its one data member `Ptr<const Object> m_value`. -/
structure PointerToConstValue where
  m_value : ObjPtr
deriving DecidableEq, Repr

/-- An attribute value seen through `AttributeValue &`: a `PointerToConstValue`, or a value of
another concrete kind (identified by `kind`) with arbitrary content. -/
inductive AttributeValue where
  | pointerToConst (v : PointerToConstValue) : AttributeValue
  | other (kind : String) (content : String) : AttributeValue
deriving DecidableEq, Repr

/-- The cast `dynamic_cast<const PointerToConstValue *> (&val)`. -/
def AttributeValue.asPointerToConstValue : AttributeValue → Option PointerToConstValue
  | pointerToConst v => some v
  | other _ _ => none

namespace PointerToConstValue

/-- Modelled from the spec: the default constructor `PointerToConstValue ()` is declared in the
header but defined outside it; the spec's `createEmpty()` is a holder with no reference. -/
def new : PointerToConstValue := { m_value := none }

/-- Modelled from the spec: `GetObject ()` is declared in the header but defined outside it; the
spec's `getBase()` returns the held reference, or empty if none. -/
def GetObject (self : PointerToConstValue) : ObjPtr := self.m_value

/-- The constructor template `PointerToConstValue (const Ptr<T> &object)`: `m_value = object`. -/
def fromPtr (_T : CxxClass) (object : ObjPtr) : PointerToConstValue := { m_value := object }

/-- The member template `Set<T> (const Ptr<T> &object)`: `m_value = object`; the result is the
holder after the call. -/
def Set (_T : CxxClass) (object : ObjPtr) (self : PointerToConstValue) : PointerToConstValue :=
  { self with m_value := object }

/-- The member template `Get<T> ()`: `dynamic_cast<T *> (PeekPointer (m_value))`. -/
def Get (T : CxxClass) (self : PointerToConstValue) : ObjPtr :=
  let v := dynamic_cast T (PeekPointer self.m_value)
  v

/-- The conversion `operator Ptr<T> ()`: `Get<T> ()`. -/
def toPtr (T : CxxClass) (self : PointerToConstValue) : ObjPtr := self.Get T

/-- The member template `GetAccessor<T> (Ptr<T> &v)`: the returned flag and the content of `v`
after the call. -/
def GetAccessor (T : CxxClass) (self : PointerToConstValue) (v : ObjPtr) : Bool × ObjPtr :=
  let ptr := dynamic_cast T (PeekPointer self.m_value)
  if ptr = none then (false, v) else (true, ptr)

/-- Modelled from the spec: the virtual `Copy ()` is declared in the header but defined outside
it; the spec's `copy()` produces an independent holder sharing the same underlying entity. -/
def Copy (self : PointerToConstValue) : AttributeValue :=
  AttributeValue.pointerToConst { m_value := self.m_value }

end PointerToConstValue

/-- A store of pointer variables: the pointer held at each address. -/
abbrev PtrStore := Nat → ObjPtr

/-- The member template `GetAccessor<T> (Ptr<T> &v)` with the holder's member `m_value` and the
output reference `v` given as cells `self` and `v` of one store of pointers (the two may be the
same cell): the returned flag and the store after the call. -/
def PointerToConstValue.GetAccessorAt (T : CxxClass) (μ : PtrStore) (self v : Nat) :
    Bool × PtrStore :=
  let ptr := dynamic_cast T (PeekPointer (μ self))
  if ptr = none then (false, μ) else (true, fun a => if a = v then ptr else μ a)

/-! ## The checker -/

/-- A store of attribute values: the value living at each address. -/
abbrev Store := Nat → AttributeValue

/-- Assignment to the attribute value at address `a`. -/
def Store.write (σ : Store) (a : Nat) (v : AttributeValue) : Store :=
  fun b => if b = a then v else σ b

namespace internal

/-- An instance of the template `internal::PointerToConstChecker<T>`: it has no data members; the
constraint type `T` is fixed by the instantiation. -/
structure PointerToConstChecker where
  T : CxxClass
deriving DecidableEq, Repr

namespace PointerToConstChecker

/-- The method `Check (const AttributeValue &val)`. -/
def Check (self : PointerToConstChecker) (val : AttributeValue) : Bool :=
  match val.asPointerToConstValue with
  | none => false
  | some value =>
    if value.GetObject = none then true
    else
      let ptr := dynamic_cast self.T (PeekPointer value.GetObject)
      if ptr = none then false else true

/-- The method `GetValueTypeName ()`. -/
def GetValueTypeName (_self : PointerToConstChecker) : String := "ns3::PointerToConstValue"

/-- The method `HasUnderlyingTypeInformation ()`. -/
def HasUnderlyingTypeInformation (_self : PointerToConstChecker) : Bool := true

/-- The method `GetUnderlyingTypeInformation ()`. -/
def GetUnderlyingTypeInformation (self : PointerToConstChecker) : String :=
  let tid := self.T.GetTypeId
  "ns3::Ptr< " ++ tid.GetName ++ " >"

/-- The method `Create ()`: `ns3::Create<PointerToConstValue> ()`, a default-constructed value. -/
def Create (_self : PointerToConstChecker) : AttributeValue :=
  AttributeValue.pointerToConst PointerToConstValue.new

/-- The method `Copy (const AttributeValue &source, AttributeValue &destination)`, on the values
at the addresses `source` and `destination` of the store: the returned flag and the store after
the call.  The assignment `*dst = *src` copies the data member `m_value`. -/
def Copy (_self : PointerToConstChecker) (σ : Store) (source destination : Nat) : Bool × Store :=
  match (σ source).asPointerToConstValue, (σ destination).asPointerToConstValue with
  | some src, some dst =>
    (true, σ.write destination (AttributeValue.pointerToConst { dst with m_value := src.m_value }))
  | _, _ => (false, σ)

/-- The method `GetPointeeTypeId ()`: `T::GetTypeId ()`. -/
def GetPointeeTypeId (self : PointerToConstChecker) : TypeId := self.T.GetTypeId

end PointerToConstChecker

end internal

/-- The factory `MakePointerToConstChecker<T> ()`: `Create<internal::PointerToConstChecker<T> > ()`. -/
def MakePointerToConstChecker (T : CxxClass) : internal.PointerToConstChecker := { T := T }

/-! ## Runs: the factory and the checker's methods called one after another -/

/-- The class `ns3::Object`. -/
def exObject : CxxClass := CxxClass.root "Object" ⟨"ns3::Object"⟩

/-- A class `Base` derived from `Object`. -/
def exBase : CxxClass := CxxClass.derived "Base" ⟨"ns3::Base"⟩ exObject

/-- A class `Derived` derived from `Base`. -/
def exDerived : CxxClass := CxxClass.derived "Derived" ⟨"ns3::Derived"⟩ exBase

/-- A class `Unrelated` derived from `Object` but not from `Base`. -/
def exUnrelated : CxxClass := CxxClass.derived "Unrelated" ⟨"ns3::Unrelated"⟩ exObject

/-- An instance of `Derived` at address 16. -/
def objD : Object := { addr := 16, dynType := exDerived }

/-- An instance of `Unrelated` at address 32. -/
def objU : Object := { addr := 32, dynType := exUnrelated }

/-- A store with a holder bound to `objD` at address 0, a holder bound to `objU` at address 1,
an empty holder at address 2 and values of another kind everywhere else. -/
def exStore : Store := fun a =>
  if a = 0 then AttributeValue.pointerToConst ⟨some objD⟩
  else if a = 1 then AttributeValue.pointerToConst ⟨some objU⟩
  else if a = 2 then AttributeValue.pointerToConst ⟨none⟩
  else AttributeValue.other "ns3::IntegerValue" "7"

namespace CxxClass

theorem not_derivedFrom_root (n : String) (tid : TypeId) (B : CxxClass) :
    ¬ DerivedFrom (root n tid) B := by
  intro h
  obtain ⟨x, hx, _⟩ := Relation.TransGen.head'_iff.mp h
  simp [IsDirectBaseOf, directBase] at hx

theorem derivedFrom_derived_iff (n : String) (tid : TypeId) (b B : CxxClass) :
    DerivedFrom (derived n tid b) B ↔ b = B ∨ DerivedFrom b B := by
  constructor
  · intro h
    obtain ⟨x, hx, hxB⟩ := Relation.TransGen.head'_iff.mp h
    have hxb : b = x := by simpa [IsDirectBaseOf, directBase] using hx
    subst hxb
    rcases Relation.reflTransGen_iff_eq_or_transGen.mp hxB with h1 | h1
    · exact Or.inl h1.symm
    · exact Or.inr h1
  · rintro (h | h)
    · subst h
      exact Relation.TransGen.single rfl
    · exact Relation.TransGen.head (show IsDirectBaseOf b (derived n tid b) from rfl) h

theorem derivedFrom_trans {D T B : CxxClass} (h1 : DerivedFrom D T) (h2 : DerivedFrom T B) :
    DerivedFrom D B :=
  Relation.TransGen.trans h1 h2

theorem isOrDerivedFrom_trans {D T B : CxxClass} (h1 : IsOrDerivedFrom D T)
    (h2 : IsOrDerivedFrom T B) : IsOrDerivedFrom D B := by
  rcases h1 with h1 | h1
  · subst h1
    exact h2
  · rcases h2 with h2 | h2
    · subst h2
      exact Or.inr h1
    · exact Or.inr (derivedFrom_trans h1 h2)

/-- The run-time walk of `dynamic_cast` decides the declared relation "is `T` or derives
from `T`". -/
theorem castsTo_iff (D T : CxxClass) : D.castsTo T = true ↔ IsOrDerivedFrom D T := by
  induction D with
  | root n tid =>
    simp only [castsTo, decide_eq_true_eq, IsOrDerivedFrom]
    constructor
    · exact Or.inl
    · rintro (h | h)
      · exact h
      · exact absurd h (not_derivedFrom_root n tid T)
  | derived n tid b ih =>
    simp only [castsTo, Bool.or_eq_true, decide_eq_true_eq, ih, IsOrDerivedFrom,
      derivedFrom_derived_iff]

theorem castsTo_self (D : CxxClass) : D.castsTo D = true :=
  (castsTo_iff D D).mpr (Or.inl rfl)

end CxxClass

theorem dynamic_cast_some_iff (T : CxxClass) (o : Object) :
    dynamic_cast T (some o) = some o ↔ CxxClass.IsOrDerivedFrom o.dynType T := by
  rw [← CxxClass.castsTo_iff]
  by_cases h : o.dynType.castsTo T = true <;> simp [dynamic_cast, h]

theorem dynamic_cast_some_eq_none_iff (T : CxxClass) (o : Object) :
    dynamic_cast T (some o) = none ↔ ¬ CxxClass.IsOrDerivedFrom o.dynType T := by
  rw [← CxxClass.castsTo_iff]
  by_cases h : o.dynType.castsTo T = true <;> simp [dynamic_cast, h]

theorem check_pointerToConst_some (T : CxxClass) (o : Object) :
    (MakePointerToConstChecker T).Check (AttributeValue.pointerToConst ⟨some o⟩) = true ↔
      CxxClass.IsOrDerivedFrom o.dynType T := by
  rw [← CxxClass.castsTo_iff]
  by_cases h : o.dynType.castsTo T = true <;>
    simp [internal.PointerToConstChecker.Check, AttributeValue.asPointerToConstValue,
      PointerToConstValue.GetObject, PeekPointer, dynamic_cast, MakePointerToConstChecker, h]

theorem check_pointerToConst_none (T : CxxClass) :
    (MakePointerToConstChecker T).Check (AttributeValue.pointerToConst ⟨none⟩) = true := by
  simp [internal.PointerToConstChecker.Check, AttributeValue.asPointerToConstValue,
    PointerToConstValue.GetObject]

theorem exDerived_derivedFrom_exBase : CxxClass.DerivedFrom exDerived exBase :=
  Relation.TransGen.single rfl

theorem exDerived_not_castsTo_exUnrelated : ¬ CxxClass.IsOrDerivedFrom exDerived exUnrelated := by
  rw [← CxxClass.castsTo_iff]
  decide

/-! ## `Check` -/

/-- C1: the checker made for `T` accepts a holder exactly when the holder is empty or the dynamic
type of the object it references is `T` or a class derived from `T`.  In particular a holder bound
to an object of dynamic type `D` is accepted by the checker for `D` and by the checker for every
ancestor `B` of `D`, and rejected by the checker for every `S` that is neither `D` nor an ancestor
of `D`. -/
theorem check_iff_empty_or_derived (T : CxxClass) (h : PointerToConstValue) :
    ((MakePointerToConstChecker T).Check (AttributeValue.pointerToConst h) = true ↔
      (h.GetObject = none ∨
        ∃ o, h.GetObject = some o ∧ CxxClass.IsOrDerivedFrom o.dynType T)) ∧
    (∀ o, h.GetObject = some o →
      (MakePointerToConstChecker o.dynType).Check (AttributeValue.pointerToConst h) = true ∧
      (∀ B, CxxClass.DerivedFrom o.dynType B →
        (MakePointerToConstChecker B).Check (AttributeValue.pointerToConst h) = true) ∧
      (∀ S, o.dynType ≠ S → ¬ CxxClass.DerivedFrom o.dynType S →
        (MakePointerToConstChecker S).Check (AttributeValue.pointerToConst h) = false)) := by
  obtain ⟨p⟩ := h
  cases p with
  | none =>
    refine ⟨?_, ?_⟩
    · simp [check_pointerToConst_none, PointerToConstValue.GetObject]
    · intro o ho
      simp [PointerToConstValue.GetObject] at ho
  | some x =>
    refine ⟨?_, ?_⟩
    · rw [check_pointerToConst_some]
      simp [PointerToConstValue.GetObject]
    · intro o ho
      have hxo : x = o := by simpa [PointerToConstValue.GetObject] using ho
      subst hxo
      refine ⟨?_, ?_, ?_⟩
      · exact (check_pointerToConst_some _ _).mpr (Or.inl rfl)
      · intro B hB
        exact (check_pointerToConst_some _ _).mpr (Or.inr hB)
      · intro S hne hnd
        have hno : ¬ CxxClass.IsOrDerivedFrom x.dynType S := by
          rintro (h1 | h1)
          · exact hne h1
          · exact hnd h1
        rw [← check_pointerToConst_some] at hno
        simpa using hno

/-- Witness for C1: a holder bound to a `Derived` instance is accepted under `Derived` and under
its ancestor `Base`, and rejected under `Unrelated`. -/
theorem check_iff_empty_or_derived_witness :
    (MakePointerToConstChecker exDerived).Check (AttributeValue.pointerToConst ⟨some objD⟩) = true ∧
    (MakePointerToConstChecker exBase).Check (AttributeValue.pointerToConst ⟨some objD⟩) = true ∧
    (MakePointerToConstChecker exUnrelated).Check
      (AttributeValue.pointerToConst ⟨some objD⟩) = false :=
  have h := (check_iff_empty_or_derived exObject ⟨some objD⟩).2 objD rfl
  ⟨h.1, h.2.1 exBase exDerived_derivedFrom_exBase,
    h.2.2 exUnrelated (by decide)
      (fun hd => exDerived_not_castsTo_exUnrelated (Or.inr hd))⟩

/-- C2: for every constraint type `T`, `Check` applied to an empty holder (one whose
`GetObject ()` is null) returns `true`. -/
theorem check_empty_holder (T : CxxClass) (h : PointerToConstValue)
    (hempty : h.GetObject = none) :
    (MakePointerToConstChecker T).Check (AttributeValue.pointerToConst h) = true := by
  obtain ⟨p⟩ := h
  have hp : p = none := hempty
  subst hp
  exact check_pointerToConst_none T

/-- Witness for C2: the empty holder is accepted under `Unrelated`. -/
theorem check_empty_holder_witness :
    PointerToConstValue.GetObject ⟨none⟩ = none ∧
    (MakePointerToConstChecker exUnrelated).Check (AttributeValue.pointerToConst ⟨none⟩) = true :=
  ⟨rfl, check_empty_holder exUnrelated ⟨none⟩ rfl⟩

/-- C3: for every constraint type `T` and every attribute value `v` whose concrete kind is not
`PointerToConstValue`, `Check (v)` returns `false`, whatever `v` contains. -/
theorem check_other_kind (T : CxxClass) (v : AttributeValue)
    (hkind : ∀ h : PointerToConstValue, v ≠ AttributeValue.pointerToConst h) :
    (MakePointerToConstChecker T).Check v = false := by
  cases v with
  | pointerToConst h => exact absurd rfl (hkind h)
  | other kind content =>
    simp [internal.PointerToConstChecker.Check, AttributeValue.asPointerToConstValue]

/-- Witness for C3: an integer-valued attribute is rejected under `Object`. -/
theorem check_other_kind_witness :
    (∀ h : PointerToConstValue,
      AttributeValue.other "ns3::IntegerValue" "7" ≠ AttributeValue.pointerToConst h) ∧
    (MakePointerToConstChecker exObject).Check (AttributeValue.other "ns3::IntegerValue" "7")
      = false :=
  ⟨fun _ hh => AttributeValue.noConfusion hh,
    check_other_kind exObject (AttributeValue.other "ns3::IntegerValue" "7")
      (fun _ hh => AttributeValue.noConfusion hh)⟩

/-! ## The checker's `Copy` -/

/-- C4: for every constraint type `T` and every pair of holders at the addresses `source` and
`destination`, the checker's `Copy` returns `true`, leaves the destination a holder referencing
the same object as the source (empty if the source is empty), and leaves the source as it was. -/
theorem checker_copy_holders (T : CxxClass) (σ : Store) (source destination : Nat)
    (hs hd : PointerToConstValue)
    (hsrc : σ source = AttributeValue.pointerToConst hs)
    (hdst : σ destination = AttributeValue.pointerToConst hd) :
    ((MakePointerToConstChecker T).Copy σ source destination).1 = true ∧
    (∃ hd' : PointerToConstValue,
      ((MakePointerToConstChecker T).Copy σ source destination).2 destination
        = AttributeValue.pointerToConst hd' ∧
      hd'.GetObject = hs.GetObject ∧
      (hs.GetObject = none → hd'.GetObject = none)) ∧
    ((MakePointerToConstChecker T).Copy σ source destination).2 source = σ source := by
  refine ⟨?_, ⟨hs, ?_, rfl, fun h => h⟩, ?_⟩
  · simp [internal.PointerToConstChecker.Copy, AttributeValue.asPointerToConstValue, hsrc, hdst]
  · simp [internal.PointerToConstChecker.Copy, AttributeValue.asPointerToConstValue, hsrc, hdst,
      Store.write]
  · by_cases hsd : source = destination
    · subst hsd
      simp [internal.PointerToConstChecker.Copy, AttributeValue.asPointerToConstValue, hsrc,
        Store.write]
    · simp [internal.PointerToConstChecker.Copy, AttributeValue.asPointerToConstValue, hsrc, hdst,
        Store.write, hsd]

/-- Witness for C4: copying the holder bound to the `Unrelated` instance (address 1) over the
holder bound to the `Derived` instance (address 0). -/
theorem checker_copy_holders_witness :
    ((MakePointerToConstChecker exBase).Copy exStore 1 0).1 = true ∧
    (∃ hd' : PointerToConstValue,
      ((MakePointerToConstChecker exBase).Copy exStore 1 0).2 0
        = AttributeValue.pointerToConst hd' ∧
      hd'.GetObject = PointerToConstValue.GetObject ⟨some objU⟩ ∧
      (PointerToConstValue.GetObject ⟨some objU⟩ = none → hd'.GetObject = none)) ∧
    ((MakePointerToConstChecker exBase).Copy exStore 1 0).2 1 = exStore 1 :=
  checker_copy_holders exBase exStore 1 0 ⟨some objU⟩ ⟨some objD⟩ rfl rfl

/-- C5: for every constraint type `T`, if the value at `source` or the value at `destination` is
of a concrete kind other than `PointerToConstValue`, the checker's `Copy` returns `false` and the
destination (indeed the whole store) is exactly as it was before the call. -/
theorem checker_copy_wrong_kind (T : CxxClass) (σ : Store) (source destination : Nat)
    (hkind : (∀ h : PointerToConstValue, σ source ≠ AttributeValue.pointerToConst h) ∨
      (∀ h : PointerToConstValue, σ destination ≠ AttributeValue.pointerToConst h)) :
    ((MakePointerToConstChecker T).Copy σ source destination).1 = false ∧
    ((MakePointerToConstChecker T).Copy σ source destination).2 destination = σ destination ∧
    ((MakePointerToConstChecker T).Copy σ source destination).2 = σ := by
  have hcopy : (MakePointerToConstChecker T).Copy σ source destination = (false, σ) := by
    rcases hkind with hk | hk
    · cases hv : σ source with
      | pointerToConst h => exact absurd hv (hk h)
      | other kind content =>
        simp [internal.PointerToConstChecker.Copy, AttributeValue.asPointerToConstValue, hv]
    · cases hv : σ destination with
      | pointerToConst h => exact absurd hv (hk h)
      | other kind content =>
        cases hw : σ source <;>
          simp [internal.PointerToConstChecker.Copy, AttributeValue.asPointerToConstValue, hv, hw]
  rw [hcopy]
  exact ⟨rfl, rfl, rfl⟩

/-- Witness for C5: the destination at address 3 holds an integer-valued attribute. -/
theorem checker_copy_wrong_kind_witness :
    ((MakePointerToConstChecker exBase).Copy exStore 0 3).1 = false ∧
    ((MakePointerToConstChecker exBase).Copy exStore 0 3).2 3 = exStore 3 ∧
    ((MakePointerToConstChecker exBase).Copy exStore 0 3).2 = exStore :=
  checker_copy_wrong_kind exBase exStore 0 3
    (Or.inr (fun _ hh => AttributeValue.noConfusion hh))

/-! ## `Get` -/

/-- C6: for every type `T` and holder `h`: if `h` is empty, `Get<T> ()` is null; if `h` is bound,
`Get<T> ()` is non-null exactly when the checker for `T` accepts `h`, and then it is the very
object `h` holds. -/
theorem get_iff_check (T : CxxClass) (h : PointerToConstValue) :
    (h.GetObject = none → h.Get T = none) ∧
    (h.GetObject ≠ none →
      ((h.Get T ≠ none ↔
          (MakePointerToConstChecker T).Check (AttributeValue.pointerToConst h) = true) ∧
        (h.Get T ≠ none → h.Get T = h.GetObject))) := by
  obtain ⟨p⟩ := h
  cases p with
  | none =>
    simp [PointerToConstValue.GetObject, PointerToConstValue.Get, PeekPointer, dynamic_cast]
  | some o =>
    by_cases hc : o.dynType.castsTo T = true <;>
      simp [PointerToConstValue.GetObject, PointerToConstValue.Get, PeekPointer, dynamic_cast,
        internal.PointerToConstChecker.Check, AttributeValue.asPointerToConstValue,
        MakePointerToConstChecker, hc]

/-- Witness for C6: the holder bound to the `Derived` instance, read as `Base`. -/
theorem get_iff_check_witness :
    (PointerToConstValue.Get exBase ⟨some objD⟩ ≠ none ↔
      (MakePointerToConstChecker exBase).Check (AttributeValue.pointerToConst ⟨some objD⟩)
        = true) ∧
    (PointerToConstValue.Get exBase ⟨some objD⟩ ≠ none →
      PointerToConstValue.Get exBase ⟨some objD⟩ = PointerToConstValue.GetObject ⟨some objD⟩) :=
  (get_iff_check exBase ⟨some objD⟩).2 (by decide)

/-! ## Type metadata -/

/-- C7, as stated, fails: for the checker of `Base` the underlying type information is
`"ns3::Ptr< ns3::Base >"`, which is not `GetValueTypeName ()` followed by `"< "`, the registered
name and `" >"`. -/
theorem underlyingTypeInformation_not_valueTypeName :
    (MakePointerToConstChecker exBase).GetUnderlyingTypeInformation ≠
      (MakePointerToConstChecker exBase).GetValueTypeName ++ "< " ++
        exBase.GetTypeId.GetName ++ " >" := by
  decide

/-- C7, amended: for every constraint type `T`, `GetUnderlyingTypeInformation ()` is the fixed
string `"ns3::Ptr"` followed by `"< "`, then the registered name of `T`, then `" >"`; it is never
`GetValueTypeName ()` followed by `"< "`, that name and `" >"`. -/
theorem underlyingTypeInformation_eq (T : CxxClass) :
    (MakePointerToConstChecker T).GetUnderlyingTypeInformation =
      "ns3::Ptr" ++ "< " ++ T.GetTypeId.GetName ++ " >" ∧
    (MakePointerToConstChecker T).GetUnderlyingTypeInformation ≠
      (MakePointerToConstChecker T).GetValueTypeName ++ "< " ++ T.GetTypeId.GetName ++ " >" := by
  refine ⟨rfl, ?_⟩
  intro h
  have h2 := congrArg (fun s => s.data.get? 6) h
  simp [internal.PointerToConstChecker.GetUnderlyingTypeInformation,
    internal.PointerToConstChecker.GetValueTypeName, String.data_append] at h2

/-- C8: for every registered type `D`, the string `GetUnderlyingTypeInformation ()` of the checker
for `D` contains, as a contiguous substring, the name of the type descriptor the same checker's
`GetPointeeTypeId ()` returns. -/
theorem underlyingTypeInformation_contains_name (D : CxxClass) :
    (∃ before after : String,
      (MakePointerToConstChecker D).GetUnderlyingTypeInformation =
        before ++ (MakePointerToConstChecker D).GetPointeeTypeId.GetName ++ after) ∧
    (MakePointerToConstChecker D).GetPointeeTypeId.GetName.data <:+:
      (MakePointerToConstChecker D).GetUnderlyingTypeInformation.data ∧
    (MakePointerToConstChecker D).GetPointeeTypeId = D.GetTypeId := by
  refine ⟨⟨"ns3::Ptr< ", " >", rfl⟩, ⟨"ns3::Ptr< ".data, " >".data, ?_⟩, rfl⟩
  simp [internal.PointerToConstChecker.GetUnderlyingTypeInformation,
    internal.PointerToConstChecker.GetPointeeTypeId, String.data_append]

/-! ## `Create`, `Set` and the constructor from a reference -/

/-- C9: for every constraint type `T`, the value returned by the checker's `Create ()` is an empty
holder: its `GetObject ()` is null, `Get<U> ()` on it is null for every `U`, and the checker of
every constraint type accepts it. -/
theorem create_is_empty (T : CxxClass) :
    ∃ h : PointerToConstValue,
      (MakePointerToConstChecker T).Create = AttributeValue.pointerToConst h ∧
      h.GetObject = none ∧
      (∀ U, h.Get U = none) ∧
      (∀ U, (MakePointerToConstChecker U).Check (MakePointerToConstChecker T).Create = true) :=
  ⟨PointerToConstValue.new, rfl, rfl, fun _ => rfl, fun U => check_pointerToConst_none U⟩

/-- C10: for every holder `h` (empty or bound) and every non-null reference `r` of static type
`T`: after `Set<T> (r)`, and likewise after constructing a holder from `r`, `Get<T> ()` returns
`r` itself, `Get<B> ()` does so for every ancestor `B` of `T`, and the checker for `T` accepts
the holder; the resulting holder is the same whatever was held before. -/
theorem set_then_get (T : CxxClass) (h : PointerToConstValue) (r : Object)
    (hr : HasStaticType T (some r)) :
    (∀ h' : PointerToConstValue,
      h' = h.Set T (some r) ∨ h' = PointerToConstValue.fromPtr T (some r) →
        h'.Get T = some r ∧
        (∀ B, CxxClass.DerivedFrom T B → h'.Get B = some r) ∧
        (MakePointerToConstChecker T).Check (AttributeValue.pointerToConst h') = true) ∧
    (∀ h₀ : PointerToConstValue, h₀.Set T (some r) = h.Set T (some r)) := by
  have hrT : CxxClass.IsOrDerivedFrom r.dynType T := hr r rfl
  refine ⟨?_, fun _ => rfl⟩
  intro h' hh'
  have hval : h' = ⟨some r⟩ := by
    rcases hh' with h1 | h1 <;> exact h1
  subst hval
  refine ⟨?_, ?_, ?_⟩
  · exact (dynamic_cast_some_iff T r).mpr hrT
  · intro B hB
    exact (dynamic_cast_some_iff B r).mpr (CxxClass.isOrDerivedFrom_trans hrT (Or.inr hB))
  · exact (check_pointerToConst_some T r).mpr hrT

/-- Witness for C10: a holder bound to the `Unrelated` instance is rebound to the `Derived`
instance through a reference of static type `Base`. -/
theorem set_then_get_witness :
    HasStaticType exBase (some objD) ∧
    (PointerToConstValue.Set exBase (some objD) ⟨some objU⟩).Get exBase = some objD ∧
    (PointerToConstValue.Set exBase (some objD) ⟨some objU⟩).Get exObject = some objD ∧
    (MakePointerToConstChecker exBase).Check
      (AttributeValue.pointerToConst (PointerToConstValue.Set exBase (some objD) ⟨some objU⟩))
       = true ∧
    PointerToConstValue.Set exBase (some objD) ⟨none⟩
      = PointerToConstValue.Set exBase (some objD) ⟨some objU⟩ :=
  have hst : HasStaticType exBase (some objD) := fun o ho => by
    cases ho
    exact Or.inr exDerived_derivedFrom_exBase
  have hmain := set_then_get exBase ⟨some objU⟩ objD hst
  have hset := hmain.1 _ (Or.inl rfl)
  ⟨hst, hset.1, hset.2.1 exObject (Relation.TransGen.single rfl), hset.2.2, hmain.2 ⟨none⟩⟩

/-! ## The holder's `Copy` -/

/-- C11: for every bound holder `h`, `Copy ()` yields a second holder whose `GetObject ()` is the
same object as `h.GetObject ()`, so every checker gives the copy the verdict it gives `h`; when
`h` is bound to an instance of a class derived from `Base`, and that class neither is nor derives
from `Unrelated`, the checker for `Base` accepts `h` and its copy and the checker for `Unrelated`
rejects `h`. -/
theorem value_copy_same_identity (h : PointerToConstValue) (hbound : h.GetObject ≠ none) :
    (∃ c : PointerToConstValue,
      h.Copy = AttributeValue.pointerToConst c ∧ c.GetObject = h.GetObject) ∧
    (∀ T, (MakePointerToConstChecker T).Check h.Copy =
      (MakePointerToConstChecker T).Check (AttributeValue.pointerToConst h)) ∧
    (∀ (o : Object) (Base Unrelated : CxxClass), h.GetObject = some o →
      CxxClass.DerivedFrom o.dynType Base → ¬ CxxClass.IsOrDerivedFrom o.dynType Unrelated →
        (MakePointerToConstChecker Base).Check (AttributeValue.pointerToConst h) = true ∧
        (MakePointerToConstChecker Base).Check h.Copy = true ∧
        (MakePointerToConstChecker Unrelated).Check (AttributeValue.pointerToConst h) = false) := by
  obtain ⟨p⟩ := h
  cases p with
  | none => exact absurd rfl hbound
  | some x =>
    refine ⟨⟨⟨some x⟩, rfl, rfl⟩, fun _ => rfl, ?_⟩
    intro o Base Unrelated ho hB hU
    have hxo : x = o := by simpa [PointerToConstValue.GetObject] using ho
    subst hxo
    have hacc := (check_pointerToConst_some Base x).mpr (Or.inr hB)
    refine ⟨hacc, hacc, ?_⟩
    rw [← check_pointerToConst_some] at hU
    simpa using hU

/-- Witness for C11: the holder bound to the `Derived` instance, with `Base` and `Unrelated`. -/
theorem value_copy_same_identity_witness :
    (∃ c : PointerToConstValue,
      PointerToConstValue.Copy ⟨some objD⟩ = AttributeValue.pointerToConst c ∧
      c.GetObject = some objD) ∧
    (MakePointerToConstChecker exBase).Check (AttributeValue.pointerToConst ⟨some objD⟩) = true ∧
    (MakePointerToConstChecker exBase).Check (PointerToConstValue.Copy ⟨some objD⟩) = true ∧
    (MakePointerToConstChecker exUnrelated).Check
      (AttributeValue.pointerToConst ⟨some objD⟩) = false :=
  have hmain := value_copy_same_identity ⟨some objD⟩ (by decide)
  ⟨hmain.1,
    hmain.2.2 objD exBase exUnrelated rfl exDerived_derivedFrom_exBase
      exDerived_not_castsTo_exUnrelated⟩

/-! ## Properties of the checker that do not depend on the value -/

/-- C12: `GetValueTypeName ()` returns the fixed string `"ns3::PointerToConstValue"` for the
checker of every constraint type `T` (the same string for any two constraint types), and
`HasUnderlyingTypeInformation ()` returns `true` for every `T`. -/
theorem valueTypeName_fixed (T : CxxClass) :
    (MakePointerToConstChecker T).GetValueTypeName = "ns3::PointerToConstValue" ∧
    (∀ T' : CxxClass,
      (MakePointerToConstChecker T').GetValueTypeName =
        (MakePointerToConstChecker T).GetValueTypeName) ∧
    (MakePointerToConstChecker T).HasUnderlyingTypeInformation = true :=
  ⟨rfl, fun _ => rfl, rfl⟩

/-- C14: `Check` is monotone along the type hierarchy: for every attribute value `v` and all
classes `D` and `B` with `D` equal to or derived from `B`, if the checker for `D` accepts `v`
then the checker for `B` accepts `v`. -/
theorem check_monotone (v : AttributeValue) (D B : CxxClass)
    (hDB : CxxClass.IsOrDerivedFrom D B)
    (hD : (MakePointerToConstChecker D).Check v = true) :
    (MakePointerToConstChecker B).Check v = true := by
  cases v with
  | other kind content =>
    simp [internal.PointerToConstChecker.Check, AttributeValue.asPointerToConstValue] at hD
  | pointerToConst h =>
    obtain ⟨p⟩ := h
    cases p with
    | none => exact check_pointerToConst_none B
    | some o =>
      rw [check_pointerToConst_some] at hD ⊢
      exact CxxClass.isOrDerivedFrom_trans hD hDB

/-- Witness for C14: the holder bound to the `Derived` instance is accepted under `Derived`,
hence under `Base`. -/
theorem check_monotone_witness :
    CxxClass.IsOrDerivedFrom exDerived exBase ∧
    (MakePointerToConstChecker exDerived).Check (AttributeValue.pointerToConst ⟨some objD⟩) = true ∧
    (MakePointerToConstChecker exBase).Check (AttributeValue.pointerToConst ⟨some objD⟩) = true :=
  ⟨Or.inr exDerived_derivedFrom_exBase, by decide,
    check_monotone (AttributeValue.pointerToConst ⟨some objD⟩) exDerived exBase
      (Or.inr exDerived_derivedFrom_exBase) (by decide)⟩

/-! ## `GetAccessor` -/

/-- C15: for every type `T`, holder `h` and initial content `v` of the output reference:
`GetAccessor<T> (v)` returns `true` exactly when `Get<T> ()` is non-null; when it returns `true`
the output reference afterwards is `Get<T> ()`; when it returns `false` (the holder is empty or
the dynamic type of its object is incompatible with `T`) the output reference is unchanged.  Run
over a store in which the holder's member and the output reference are cells, the call gives the
same flag and output, leaves the holder's cell as it was (even if the two cells coincide) and
touches no cell but the output. -/
theorem getAccessor_spec (T : CxxClass) (h : PointerToConstValue) (v : ObjPtr) :
    ((h.GetAccessor T v).1 = true ↔ h.Get T ≠ none) ∧
    ((h.GetAccessor T v).1 = true → (h.GetAccessor T v).2 = h.Get T) ∧
    ((h.GetAccessor T v).1 = false →
      (h.GetAccessor T v).2 = v ∧
      (h.GetObject = none ∨
        ∃ o, h.GetObject = some o ∧ ¬ CxxClass.IsOrDerivedFrom o.dynType T)) ∧
    (∀ (μ : PtrStore) (self out : Nat), μ self = h.m_value → μ out = v →
      (PointerToConstValue.GetAccessorAt T μ self out).1 = (h.GetAccessor T v).1 ∧
      (PointerToConstValue.GetAccessorAt T μ self out).2 out = (h.GetAccessor T v).2 ∧
      (PointerToConstValue.GetAccessorAt T μ self out).2 self = μ self ∧
      (∀ a, a ≠ out → (PointerToConstValue.GetAccessorAt T μ self out).2 a = μ a)) := by
  obtain ⟨p⟩ := h
  cases p with
  | none =>
    refine ⟨?_, ?_, ?_, ?_⟩
    · simp [PointerToConstValue.GetAccessor, PointerToConstValue.Get, PeekPointer, dynamic_cast]
    · simp [PointerToConstValue.GetAccessor, PointerToConstValue.Get, PeekPointer, dynamic_cast]
    · simp [PointerToConstValue.GetAccessor, PointerToConstValue.GetObject, PeekPointer,
        dynamic_cast]
    · intro μ self out hself hout
      simp only at hself
      simp [PointerToConstValue.GetAccessorAt, PointerToConstValue.GetAccessor, PeekPointer,
        dynamic_cast, hself, hout]
  | some o =>
    by_cases hc : o.dynType.castsTo T = true
    · refine ⟨?_, ?_, ?_, ?_⟩
      · simp [PointerToConstValue.GetAccessor, PointerToConstValue.Get, PeekPointer,
          dynamic_cast, hc]
      · simp [PointerToConstValue.GetAccessor, PointerToConstValue.Get, PeekPointer,
          dynamic_cast, hc]
      · simp [PointerToConstValue.GetAccessor, PeekPointer, dynamic_cast, hc]
      · intro μ self out hself hout
        simp only at hself
        refine ⟨?_, ?_, ?_, ?_⟩
        · simp [PointerToConstValue.GetAccessorAt, PointerToConstValue.GetAccessor, PeekPointer,
            dynamic_cast, hself, hc]
        · simp [PointerToConstValue.GetAccessorAt, PointerToConstValue.GetAccessor, PeekPointer,
            dynamic_cast, hself, hc]
        · simp [PointerToConstValue.GetAccessorAt, PeekPointer, dynamic_cast, hself, hc]
        · intro a ha
          simp [PointerToConstValue.GetAccessorAt, PeekPointer, dynamic_cast, hself, hc, ha]
    · have hno : ¬ CxxClass.IsOrDerivedFrom o.dynType T := by
        rw [← CxxClass.castsTo_iff]
        exact hc
      refine ⟨?_, ?_, ?_, ?_⟩
      · simp [PointerToConstValue.GetAccessor, PointerToConstValue.Get, PeekPointer,
          dynamic_cast, hc]
      · simp [PointerToConstValue.GetAccessor, PointerToConstValue.Get, PeekPointer,
          dynamic_cast, hc]
      · intro _
        refine ⟨?_, Or.inr ⟨o, rfl, hno⟩⟩
        simp [PointerToConstValue.GetAccessor, PeekPointer, dynamic_cast, hc]
      · intro μ self out hself hout
        simp only at hself
        simp [PointerToConstValue.GetAccessorAt, PointerToConstValue.GetAccessor, PeekPointer,
          dynamic_cast, hself, hout, hc]

/-- Witness for C15: reading the holder bound to the `Derived` instance as `Base` succeeds and
overwrites the output; reading it as `Unrelated` fails and leaves the output as it was. -/
theorem getAccessor_spec_witness :
    (PointerToConstValue.GetAccessor exBase ⟨some objD⟩ (some objU)).2
      = PointerToConstValue.Get exBase ⟨some objD⟩ ∧
    (PointerToConstValue.GetAccessor exUnrelated ⟨some objD⟩ (some objU)).2 = some objU ∧
    (PointerToConstValue.GetAccessorAt exBase (fun _ => some objD) 0 0).2 0 = some objD :=
  ⟨(getAccessor_spec exBase ⟨some objD⟩ (some objU)).2.1 (by decide),
    ((getAccessor_spec exUnrelated ⟨some objD⟩ (some objU)).2.2.1 (by decide)).1,
    ((getAccessor_spec exBase ⟨some objD⟩ (some objD)).2.2.2
      (fun _ => some objD) 0 0 rfl rfl).2.2.1⟩

/-! ## The checker's `Copy` and the type constraint -/

theorem checker_copy_of_holders (c : internal.PointerToConstChecker) (σ : Store)
    (source destination : Nat) (hs hd : PointerToConstValue)
    (hsrc : σ source = AttributeValue.pointerToConst hs)
    (hdst : σ destination = AttributeValue.pointerToConst hd) :
    c.Copy σ source destination =
      (true, σ.write destination (AttributeValue.pointerToConst hs)) := by
  simp [internal.PointerToConstChecker.Copy, AttributeValue.asPointerToConstValue, hsrc, hdst]

theorem checker_copy_true_holders (c : internal.PointerToConstChecker) (σ : Store)
    (source destination : Nat) (htrue : (c.Copy σ source destination).1 = true) :
    ∃ hs hd : PointerToConstValue,
      σ source = AttributeValue.pointerToConst hs ∧
      σ destination = AttributeValue.pointerToConst hd := by
  cases hv : σ source with
  | other kind content =>
    simp [internal.PointerToConstChecker.Copy, AttributeValue.asPointerToConstValue, hv] at htrue
  | pointerToConst hs =>
    cases hw : σ destination with
    | other kind content =>
      simp [internal.PointerToConstChecker.Copy, AttributeValue.asPointerToConstValue, hv,
        hw] at htrue
    | pointerToConst hd => exact ⟨hs, hd, rfl, rfl⟩

theorem store_write_same (σ : Store) (a : Nat) (v : AttributeValue) : σ.write a v a = v := by
  simp [Store.write]

theorem store_write_idem (σ : Store) (a : Nat) (v : AttributeValue) :
    (σ.write a v).write a v = σ.write a v := by
  funext b
  by_cases hb : b = a <;> simp [Store.write, hb]

theorem store_write_read_source (σ : Store) (source destination : Nat) :
    σ.write destination (σ source) source = σ source := by
  by_cases hsd : source = destination
  · subst hsd
    simp [Store.write]
  · simp [Store.write, hsd]

/-- C16: the checker's `Copy` does not apply the type constraint `T`: for every `T` and every
pair of holders at `source` and `destination`, `Copy` returns `true` and overwrites the
destination with the source, whatever `Check` says of the source; the destination afterwards
gets the source's verdict, so it fails `Check` whenever the source does, even if it passed
before the call. -/
theorem checker_copy_ignores_constraint (T : CxxClass) (σ : Store) (source destination : Nat)
    (hs hd : PointerToConstValue)
    (hsrc : σ source = AttributeValue.pointerToConst hs)
    (hdst : σ destination = AttributeValue.pointerToConst hd) :
    ((MakePointerToConstChecker T).Copy σ source destination).1 = true ∧
    ((MakePointerToConstChecker T).Copy σ source destination).2 destination = σ source ∧
    (MakePointerToConstChecker T).Check
      (((MakePointerToConstChecker T).Copy σ source destination).2 destination) =
        (MakePointerToConstChecker T).Check (σ source) ∧
    ((MakePointerToConstChecker T).Check (σ destination) = true →
      (MakePointerToConstChecker T).Check (σ source) = false →
        (MakePointerToConstChecker T).Check
          (((MakePointerToConstChecker T).Copy σ source destination).2 destination) = false) := by
  rw [checker_copy_of_holders _ σ source destination hs hd hsrc hdst]
  have hw : σ.write destination (AttributeValue.pointerToConst hs) destination
      = AttributeValue.pointerToConst hs := store_write_same _ _ _
  refine ⟨rfl, ?_, ?_, ?_⟩
  · show σ.write destination (AttributeValue.pointerToConst hs) destination = σ source
    rw [hw, hsrc]
  · show (MakePointerToConstChecker T).Check
      (σ.write destination (AttributeValue.pointerToConst hs) destination) = _
    rw [hw, hsrc]
  · intro _ hfalse
    show (MakePointerToConstChecker T).Check
      (σ.write destination (AttributeValue.pointerToConst hs) destination) = false
    rw [hw, ← hsrc]
    exact hfalse

/-- Witness for C16: under the checker for `Base`, the holder bound to the `Derived` instance
(address 0) passes `Check`; copying over it the holder bound to the `Unrelated` instance
(address 1), which fails `Check`, succeeds, and the destination then fails `Check`. -/
theorem checker_copy_ignores_constraint_witness :
    (MakePointerToConstChecker exBase).Check (exStore 0) = true ∧
    (MakePointerToConstChecker exBase).Check (exStore 1) = false ∧
    ((MakePointerToConstChecker exBase).Copy exStore 1 0).1 = true ∧
    (MakePointerToConstChecker exBase).Check
      (((MakePointerToConstChecker exBase).Copy exStore 1 0).2 0) = false :=
  have hmain := checker_copy_ignores_constraint exBase exStore 1 0 ⟨some objU⟩ ⟨some objD⟩
    rfl rfl
  ⟨by decide, by decide, hmain.1, hmain.2.2.2 (by decide) (by decide)⟩

/-- C17: after a checker's `Copy (source, destination)` has returned `true`, the destination and
the source are indistinguishable: both are holders referencing the same object, for every type
`U` the checker for `U` gives them the same verdict and `Get<U> ()` returns the same on both; and
repeating the same `Copy` returns `true` again and changes nothing further. -/
theorem checker_copy_indistinguishable (T : CxxClass) (σ : Store) (source destination : Nat)
    (htrue : ((MakePointerToConstChecker T).Copy σ source destination).1 = true) :
    (∀ U, (MakePointerToConstChecker U).Check
        (((MakePointerToConstChecker T).Copy σ source destination).2 destination) =
      (MakePointerToConstChecker U).Check
        (((MakePointerToConstChecker T).Copy σ source destination).2 source)) ∧
    (∃ hs' hd' : PointerToConstValue,
      ((MakePointerToConstChecker T).Copy σ source destination).2 source
        = AttributeValue.pointerToConst hs' ∧
      ((MakePointerToConstChecker T).Copy σ source destination).2 destination
        = AttributeValue.pointerToConst hd' ∧
      hd'.GetObject = hs'.GetObject ∧
      (∀ U, hd'.Get U = hs'.Get U)) ∧
    (MakePointerToConstChecker T).Copy
        ((MakePointerToConstChecker T).Copy σ source destination).2 source destination =
      (true, ((MakePointerToConstChecker T).Copy σ source destination).2) := by
  obtain ⟨hs, hd, hsrc, hdst⟩ := checker_copy_true_holders _ σ source destination htrue
  rw [checker_copy_of_holders _ σ source destination hs hd hsrc hdst]
  have hd' : σ.write destination (AttributeValue.pointerToConst hs) destination
      = AttributeValue.pointerToConst hs := store_write_same _ _ _
  have hs' : σ.write destination (AttributeValue.pointerToConst hs) source
      = AttributeValue.pointerToConst hs := by
    rw [← hsrc]
    exact store_write_read_source σ source destination
  refine ⟨?_, ⟨hs, hs, hs', hd', rfl, fun _ => rfl⟩, ?_⟩
  · intro U
    simp only [hd', hs']
  · rw [checker_copy_of_holders _ _ source destination hs hs hs' hd', store_write_idem]

/-- Witness for C17: after copying the holder at address 1 over the holder at address 0 of the
example store, both give the same verdict under `Base` and a second `Copy` changes nothing. -/
theorem checker_copy_indistinguishable_witness :
    ((MakePointerToConstChecker exBase).Copy exStore 1 0).1 = true ∧
    (MakePointerToConstChecker exBase).Check
        (((MakePointerToConstChecker exBase).Copy exStore 1 0).2 0) =
      (MakePointerToConstChecker exBase).Check
        (((MakePointerToConstChecker exBase).Copy exStore 1 0).2 1) ∧
    (MakePointerToConstChecker exBase).Copy
        ((MakePointerToConstChecker exBase).Copy exStore 1 0).2 1 0 =
      (true, ((MakePointerToConstChecker exBase).Copy exStore 1 0).2) :=
  have hmain := checker_copy_indistinguishable exBase exStore 1 0 (by decide)
  ⟨by decide, hmain.1 exBase, hmain.2.2⟩

end ns3
